import Mathlib

/-!
Shallow embedding of the configuration and theme layer of the repository
(src/elia_chat/config.py and src/elia_chat/themes.py).

Conventions of the embedding:
 - pydantic `BaseModel` construction from keyword arguments is modelled by a
   `...Args` structure whose fields are `Option`s (`none` = keyword absent)
   together with a constructor function returning `Except` (a pydantic
   `ValidationError` listing the missing required fields, in declaration
   order, as pydantic reports them);
 - type coercion and format checks done by pydantic itself on values of the
   right Lean type are identities; `SecretStr` and `AnyHttpUrl` are kept
   abstract as strings since no claim inspects them;
 - python float literals in the source are exact decimal literals; they are
   modelled as rationals;
 - the process environment is a function `String → Option String` passed
   explicitly where the source reads `os.getenv`.
-/

namespace Elia

/-- Model descriptor, from `class EliaChatModel` in src/elia_chat/config.py.
Field defaults follow the source: `temperature` defaults to 1.0 and
`max_retries` to 0; all remaining optional fields default to `None`. -/
structure EliaChatModel where
  name : String
  id : Option String := none
  display_name : Option String := none
  provider : Option String := none
  api_key : Option String := none
  api_base : Option String := none
  organization : Option String := none
  description : Option String := none
  product : Option String := none
  temperature : Rat := 1
  max_retries : Int := 0
  deriving Repr, DecidableEq

/-- Keyword arguments of `EliaChatModel(...)`; `none` means the keyword was
not supplied at the call site. -/
structure EliaChatModelArgs where
  name : Option String := none
  id : Option String := none
  display_name : Option String := none
  provider : Option String := none
  api_key : Option String := none
  api_base : Option String := none
  organization : Option String := none
  description : Option String := none
  product : Option String := none
  temperature : Option Rat := none
  max_retries : Option Int := none
  deriving Repr, DecidableEq

/-- Construction of `EliaChatModel`: pydantic accepts any string for `name`
(the class declares `name : str` with no validator), and rejects only a
missing `name`, the sole field without a default. -/
def mkEliaChatModel (args : EliaChatModelArgs) : Except (List String) EliaChatModel :=
  match args.name with
  | none => .error ["name"]
  | some n =>
      .ok { name := n
            id := args.id
            display_name := args.display_name
            provider := args.provider
            api_key := args.api_key
            api_base := args.api_base
            organization := args.organization
            description := args.description
            product := args.product
            temperature := args.temperature.getD 1
            max_retries := args.max_retries.getD 0 }

/-- The `lookup_key` property: `return self.id or self.name`. Python `or`
returns the first operand when it is truthy; an empty string and `None` are
falsy, so an empty-string `id` falls through to `name`. -/
def EliaChatModel.lookup_key (m : EliaChatModel) : String :=
  match m.id with
  | some s => if s = "" then m.name else s
  | none => m.name

/-- `get_builtin_openai_models()` from src/elia_chat/config.py. -/
def get_builtin_openai_models : List EliaChatModel :=
  [ { id := some "elia-gpt-4.1"
      name := "gpt-4.1"
      display_name := some "GPT-4.1"
      provider := some "OpenAI"
      product := some "ChatGPT"
      description := some "Flagship GPT model for complex tasks."
      temperature := 7/10 }
  , { id := some "elia-gpt-4o"
      name := "gpt-4o"
      display_name := some "GPT-4o"
      provider := some "OpenAI"
      product := some "ChatGPT"
      description := some "Fast, intelligent, flexible GPT model."
      temperature := 7/10 }
  , { id := some "elia-o4-mini"
      name := "o4-mini"
      display_name := some "o4-mini"
      provider := some "OpenAI"
      product := some "ChatGPT"
      description := some "Faster, more affordable reasoning model" } ]

/-- `get_builtin_anthropic_models()` from src/elia_chat/config.py. -/
def get_builtin_anthropic_models : List EliaChatModel :=
  [ { id := some "elia-claude-3-7-sonnet-20250219"
      name := "claude-3-7-sonnet-20250219"
      display_name := some "Claude 3.7 Sonnet"
      provider := some "Anthropic"
      product := some "Claude 3.7"
      description := some "Anthropic's most intelligent model with extended thinking capabilities" }
  , { id := some "elia-claude-3-5-sonnet-20241022"
      name := "claude-3-5-sonnet-20241022"
      display_name := some "Claude 3.5 Sonnet"
      provider := some "Anthropic"
      product := some "Claude 3.5 Sonnet"
      description := some "Anthropic's previous most intelligent model." }
  , { id := some "elia-claude-3-5-haiku-20241022"
      name := "claude-3-5-haiku-20241022"
      display_name := some "Claude 3.5 Haiku"
      provider := some "Anthropic"
      product := some "Claude 3.5 Haiku"
      description := some "Anthropic's fastest and most cost-effective model." } ]

/-- `get_builtin_google_models()` from src/elia_chat/config.py. -/
def get_builtin_google_models : List EliaChatModel :=
  [ { id := some "elia-gemini-2.5-pro-preview-05-06"
      name := "gemini-2.5-pro-preview-05-06"
      display_name := some "Gemini 2.5 Pro Preview"
      provider := some "Google"
      product := some "Gemini"
      description := some "Google's most powerful thinking model." }
  , { id := some "elia-gemini-2.5-flash-preview-05-20"
      name := "gemini-2.5-flash-preview-05-20"
      display_name := some "Gemini 2.5 Flash Preview"
      provider := some "Google"
      product := some "Gemini"
      description := some "Google's first hybrid reasoning model with thinking budgets." } ]

/-- `get_builtin_models()` from src/elia_chat/config.py: the concatenation of
the three provider generators, in source order. -/
def get_builtin_models : List EliaChatModel :=
  get_builtin_openai_models ++ get_builtin_anthropic_models ++ get_builtin_google_models

/-- The process environment, as read by `os.getenv`. -/
def Env : Type := String → Option String

/-- The default of the `system_prompt` field:
`os.getenv("ELIA_SYSTEM_PROMPT", "You are a helpful assistant named Elia.")`. -/
def systemPromptDefault (env : Env) : String :=
  (env "ELIA_SYSTEM_PROMPT").getD "You are a helpful assistant named Elia."

/-- Launch configuration record, from `class LaunchConfig` in
src/elia_chat/config.py (the model is frozen; immutability is implicit in
the Lean value semantics). -/
structure LaunchConfig where
  default_model : String
  system_prompt : String
  message_code_theme : String
  models : List EliaChatModel
  builtin_models : List EliaChatModel
  theme : String
  deriving Repr, DecidableEq

/-- Keyword arguments of `LaunchConfig(...)`; `builtin_models` is declared
with `init=False` and populated from its factory, so it is not part of the
accepted keywords here. -/
structure LaunchConfigArgs where
  default_model : Option String := none
  system_prompt : Option String := none
  message_code_theme : Option String := none
  models : Option (List EliaChatModel) := none
  theme : Option String := none
  deriving Repr, DecidableEq

/-- Python `str.strip()` with no argument: the string without its leading
and trailing whitespace, here over the character list (the claims only
exercise ASCII space characters). -/
def pyStrip (s : String) : String :=
  String.mk (((s.data.dropWhile Char.isWhitespace).reverse.dropWhile
    Char.isWhitespace).reverse)

/-- The `@field_validator("system_prompt")` named `non_empty`:
`if not value or value.strip() == "": raise ValueError(...)`, else the value
is returned unchanged (`not value` on a string tests for the empty string). -/
def non_empty (value : String) : Except String String :=
  if value = "" ∨ pyStrip value = "" then
    .error "system prompt must not be empty"
  else
    .ok value

/-- Construction of `LaunchConfig`: field validators run on supplied values
only (pydantic does not validate defaults unless `validate_default` is set,
which this model does not do); the `system_prompt` default is drawn from the
environment with a fixed fallback, and `builtin_models` always comes from
`get_builtin_models`. -/
def mkLaunchConfig (env : Env) (args : LaunchConfigArgs) : Except String LaunchConfig :=
  match args.system_prompt with
  | none =>
      .ok { default_model := args.default_model.getD "elia-gpt-4.1"
            system_prompt := systemPromptDefault env
            message_code_theme := args.message_code_theme.getD "monokai"
            models := args.models.getD []
            builtin_models := get_builtin_models
            theme := args.theme.getD "nebula" }
  | some v =>
      match non_empty v with
      | .error e => .error e
      | .ok sp =>
          .ok { default_model := args.default_model.getD "elia-gpt-4.1"
                system_prompt := sp
                message_code_theme := args.message_code_theme.getD "monokai"
                models := args.models.getD []
                builtin_models := get_builtin_models
                theme := args.theme.getD "nebula" }

/-- Theme descriptor, from `class Theme` in src/elia_chat/themes.py. The
`name` field carries `Field(exclude=True)` (excluded from `model_dump`);
`dark` defaults to `True`; `«variables» : dict` has no default and is
therefore a required field; the values of the `variables` dict are
arbitrary, which no claim inspects, so they are kept as strings. -/
structure Theme where
  name : String
  primary : String
  secondary : Option String := none
  background : Option String := none
  surface : Option String := none
  panel : Option String := none
  warning : Option String := none
  error : Option String := none
  success : Option String := none
  accent : Option String := none
  dark : Bool := true
  «variables» : List (String × String)
  deriving Repr, DecidableEq

/-- A parsed YAML mapping fed to `Theme(**theme_content)`: each field is
`some` when the corresponding top-level key is present in the document. The
empty structure is the empty document `{}`. -/
structure ThemeDoc where
  name : Option String := none
  primary : Option String := none
  secondary : Option String := none
  background : Option String := none
  surface : Option String := none
  panel : Option String := none
  warning : Option String := none
  error : Option String := none
  success : Option String := none
  accent : Option String := none
  dark : Option Bool := none
  «variables» : Option (List (String × String)) := none
  deriving Repr, DecidableEq

/-- The required fields of `Theme` missing from a document, in declaration
order, as pydantic lists them in its `ValidationError`. -/
def ThemeDoc.missingFields (doc : ThemeDoc) : List String :=
  (if doc.name.isNone then ["name"] else [])
    ++ (if doc.primary.isNone then ["primary"] else [])
    ++ (if doc.«variables».isNone then ["variables"] else [])

/-- Construction of `Theme` by `Theme(**theme_content)`: `name`, `primary`
and `variables` are required (no defaults in the class body); every other
field takes its declared default when absent; pydantic raises a
`ValidationError` naming every missing required field. -/
def mkTheme (doc : ThemeDoc) : Except (List String) Theme :=
  match doc.name, doc.primary, doc.«variables» with
  | some n, some p, some v =>
      .ok { name := n
            primary := p
            secondary := doc.secondary
            background := doc.background
            surface := doc.surface
            panel := doc.panel
            warning := doc.warning
            error := doc.error
            success := doc.success
            accent := doc.accent
            dark := doc.dark.getD true
            «variables» := v }
  | _, _, _ => .error doc.missingFields

/-- A value appearing in the output of `Theme.model_dump`. -/
inductive DumpVal where
  | str (s : String)
  | ostr (o : Option String)
  | bool (b : Bool)
  | dict (d : List (String × String))
  deriving Repr, DecidableEq

/-- The `model_dump(exclude=...)` call on a `Theme`: all fields in
declaration order, except `name`, which is dropped unconditionally because
of its `Field(exclude=True)` marker, and except the fields whose literal
name appears in the `exclude` argument. -/
def Theme.modelDump (t : Theme) (exclude : List String) : List (String × DumpVal) :=
  ([ ("primary", DumpVal.str t.primary)
   , ("secondary", DumpVal.ostr t.secondary)
   , ("background", DumpVal.ostr t.background)
   , ("surface", DumpVal.ostr t.surface)
   , ("panel", DumpVal.ostr t.panel)
   , ("warning", DumpVal.ostr t.warning)
   , ("error", DumpVal.ostr t.error)
   , ("success", DumpVal.ostr t.success)
   , ("accent", DumpVal.ostr t.accent)
   , ("dark", DumpVal.bool t.dark)
   , ("variables", DumpVal.dict t.«variables»)
   ]).filter (fun kv => !(exclude.contains kv.1))

/-- The literal exclusion set passed to `model_dump` inside
`Theme.to_color_system`. -/
def colorSystemExclude : List String :=
  ["text_area", "syntax", "variable", "url", "method"]

/-- The `to_color_system` method: the keyword arguments handed to the
external `ColorSystem` constructor, i.e. the model dump under the literal
exclusion set (the `ColorSystem` class itself belongs to the external
rendering library and stays abstract). -/
def Theme.to_color_system (t : Theme) : List (String × DumpVal) :=
  t.modelDump colorSystemExclude

/-- One directory entry seen by `load_user_themes`: its path, its suffix
(`path.suffix`), and the result of `yaml.load` on its content (`none` when
the parse yields no document, which the source replaces by `{}` via
`or {}`). Non-`.yaml`/`.yml` entries carry no usable document and their
`doc` is ignored. -/
structure ThemeFile where
  path : String
  ext : String
  doc : Option ThemeDoc := none
  deriving Repr, DecidableEq

/-- An error escaping `load_user_themes`: either a pydantic
`ValidationError` from `Theme(**theme_content)` (carrying the missing field
names, no file path), or the `ValueError` raised by the `except KeyError`
handler (carrying its message string). -/
inductive LoadError where
  | schemaError (missing : List String)
  | valueError (msg : String)
  deriving Repr, DecidableEq

/-- Python dict assignment `themes[k] = v`: replaces in place when the key
exists, appends otherwise (insertion order preserved). -/
def dictInsert (m : List (String × Theme)) (k : String) (v : Theme) :
    List (String × Theme) :=
  if m.any (fun kv => kv.1 = k) then
    m.map (fun kv => if kv.1 = k then (k, v) else kv)
  else
    m ++ [(k, v)]

/-- The loop body of `load_user_themes`, folded over the directory listing.
For each `.yaml`/`.yml` file the statement
`themes[theme_content["name"]] = Theme(**theme_content)` evaluates its
right-hand side FIRST (Python evaluates the assigned expression before the
subscript target), so a pydantic `ValidationError` from `Theme(...)`
propagates before `theme_content["name"]` is ever read; the
`except KeyError` branch raising the path-naming `ValueError` is reached
only if `Theme(...)` succeeded while the `name` key is absent, which cannot
happen since `name` is a required field of `Theme`. -/
def loadUserThemesAux : List ThemeFile → List (String × Theme) →
    Except LoadError (List (String × Theme))
  | [], themes => .ok themes
  | file :: rest, themes =>
      if file.ext = ".yaml" ∨ file.ext = ".yml" then
        let theme_content := file.doc.getD {}
        match mkTheme theme_content with
        | .error missing => .error (.schemaError missing)
        | .ok t =>
            match theme_content.name with
            | none =>
                .error (.valueError
                  ("Invalid theme file " ++ file.path ++ ". A `name` is required."))
            | some n => loadUserThemesAux rest (dictInsert themes n t)
      else
        loadUserThemesAux rest themes

/-- The function `load_user_themes()` of src/elia_chat/themes.py, over an
explicit directory listing (the filesystem iteration itself is external). -/
def loadUserThemes (files : List ThemeFile) : Except LoadError (List (String × Theme)) :=
  loadUserThemesAux files []

/-- A successfully constructed `Theme` can only come from a document whose
`name` key is present (`name` is a required field). -/
theorem mkTheme_ok_name_isSome (doc : ThemeDoc) (t : Theme)
    (h : mkTheme doc = .ok t) : doc.name.isSome := by
  cases hn : doc.name with
  | some n => rfl
  | none =>
    exfalso
    cases hp : doc.primary <;> cases hv : doc.«variables» <;>
      simp [mkTheme, hn, hp, hv] at h

/-- The `except KeyError` branch of `load_user_themes` is unreachable: the
loop never raises the path-naming `ValueError`, because the pydantic
construction on the right-hand side of the assignment runs first and fails
whenever `name` is missing. -/
theorem loadUserThemesAux_no_valueError (files : List ThemeFile) :
    ∀ acc msg, loadUserThemesAux files acc ≠ Except.error (LoadError.valueError msg) := by
  induction files with
  | nil =>
    intro acc msg h
    simp [loadUserThemesAux] at h
  | cons f rest ih =>
    intro acc msg h
    rw [loadUserThemesAux] at h
    by_cases hext : (f.ext = ".yaml" ∨ f.ext = ".yml")
    · rw [if_pos hext] at h
      dsimp only at h
      cases hm : mkTheme (f.doc.getD {}) with
      | error ms =>
        rw [hm] at h
        simp at h
      | ok t =>
        rw [hm] at h
        cases hn : (f.doc.getD {}).name with
        | none =>
          have hs := mkTheme_ok_name_isSome _ _ hm
          rw [hn] at hs
          simp at hs
        | some n =>
          rw [hn] at h
          exact ih _ _ h
    · rw [if_neg hext] at h
      exact ih _ _ h

/-- Environment with only `ELIA_SYSTEM_PROMPT=foo` set. -/
def envFoo : Env := fun k => if k = "ELIA_SYSTEM_PROMPT" then some "foo" else none

/-- The document `{name: "foo", primary: "#112233"}`. -/
def fooThemeDoc : ThemeDoc := { name := some "foo", primary := some "#112233" }

/-- A theme-directory entry holding `fooThemeDoc`. -/
def fooThemeFile : ThemeFile :=
  { path := "themes/foo.yaml", ext := ".yaml", doc := some fooThemeDoc }

/-- The document `{name: "foo", primary: "#112233", variables: {}}`. -/
def fooThemeDocFull : ThemeDoc :=
  { name := some "foo", primary := some "#112233", «variables» := some [] }

/-- A theme-directory entry holding `fooThemeDocFull`. -/
def fooThemeFileFull : ThemeFile :=
  { path := "themes/foo.yaml", ext := ".yaml", doc := some fooThemeDocFull }

/-- The document `{primary: "#112233", variables: {}}`, with no `name`. -/
def noNameThemeDoc : ThemeDoc := { primary := some "#112233", «variables» := some [] }

/-- A theme-directory entry holding `noNameThemeDoc`. -/
def noNameThemeFile : ThemeFile :=
  { path := "themes/bad.yaml", ext := ".yaml", doc := some noNameThemeDoc }

/-- A `.yml` theme-directory entry whose parse yields an empty document. -/
def emptyDocThemeFile : ThemeFile :=
  { path := "themes/empty.yml", ext := ".yml", doc := none }

/-- The document `{name: "foo"}`, missing `primary` and `variables`. -/
def nameOnlyThemeDoc : ThemeDoc := { name := some "foo" }

/-- C1 (counterexample): a model descriptor with an empty `name` and no `id`
is accepted by construction (no validator restricts `name`), and its
`lookup_key` is the empty string, contradicting the claimed invariant that
`lookup_key` is never empty. -/
theorem c1_counterexample :
    mkEliaChatModel { name := some "" } = .ok { name := "" } ∧
    ({ name := "" } : EliaChatModel).lookup_key = "" :=
  ⟨rfl, rfl⟩

/-- C1 (amended): for every model descriptor accepted by construction,
`lookup_key` equals `id` when `id` is set to a non-empty string, equals
`name` when `id` is unset or set to the empty string, and is non-empty
whenever `name` is non-empty. -/
theorem c1_lookup_key_amended (args : EliaChatModelArgs) (m : EliaChatModel)
    (_h : mkEliaChatModel args = .ok m) :
    (∀ s, m.id = some s → s ≠ "" → m.lookup_key = s) ∧
    ((m.id = none ∨ m.id = some "") → m.lookup_key = m.name) ∧
    (m.name ≠ "" → m.lookup_key ≠ "") := by
  refine ⟨?_, ?_, ?_⟩
  · intro s hs hne
    simp [EliaChatModel.lookup_key, hs, hne]
  · intro hid
    cases hid with
    | inl h0 => simp [EliaChatModel.lookup_key, h0]
    | inr h0 => simp [EliaChatModel.lookup_key, h0]
  · intro hname
    cases hid : m.id with
    | none =>
      have hkey : m.lookup_key = m.name := by simp [EliaChatModel.lookup_key, hid]
      rw [hkey]
      exact hname
    | some s =>
      by_cases hs : s = ""
      · have hkey : m.lookup_key = m.name := by
          simp [EliaChatModel.lookup_key, hid, hs]
        rw [hkey]
        exact hname
      · have hkey : m.lookup_key = s := by
          simp [EliaChatModel.lookup_key, hid, hs]
        rw [hkey]
        exact hs

/-- C1 witness: a descriptor constructed with `name="gpt"` and `id="work"`
has `lookup_key = "work"`. -/
theorem c1_witness :
    ∃ m, mkEliaChatModel { name := some "gpt", id := some "work" } = .ok m ∧
      m.lookup_key = "work" :=
  ⟨_, rfl, (c1_lookup_key_amended { name := some "gpt", id := some "work" } _ rfl).1
    "work" rfl (by decide)⟩

/-- C2: constructing a launch configuration with an empty or all-whitespace
`system_prompt` fails at construction with the validation error of the
`non_empty` validator, while `system_prompt="hello"` succeeds and stores
exactly `"hello"`. -/
theorem c2_system_prompt_validation (env : Env) :
    mkLaunchConfig env { system_prompt := some "" } =
      .error "system prompt must not be empty" ∧
    mkLaunchConfig env { system_prompt := some "   " } =
      .error "system prompt must not be empty" ∧
    (∃ c, mkLaunchConfig env { system_prompt := some "hello" } = .ok c ∧
      c.system_prompt = "hello") :=
  ⟨rfl, rfl, ⟨_, rfl, rfl⟩⟩

/-- C3: constructing a launch configuration with no arguments succeeds, for
every environment, and yields the declared defaults: default model
`elia-gpt-4.1`, code theme `monokai`, no user models, the builtin catalog
from `get_builtin_models`, and theme `nebula`. -/
theorem c3_defaults (env : Env) :
    ∃ c, mkLaunchConfig env {} = .ok c ∧
      c.default_model = "elia-gpt-4.1" ∧
      c.message_code_theme = "monokai" ∧
      c.models = [] ∧
      c.builtin_models = get_builtin_models ∧
      c.theme = "nebula" :=
  ⟨_, rfl, rfl, rfl, rfl, rfl, rfl⟩

/-- C5: when the environment sets `ELIA_SYSTEM_PROMPT` to `"foo"` and no
explicit `system_prompt` argument is given, construction succeeds and the
stored `system_prompt` is `"foo"`. -/
theorem c5_env_override (env : Env) (args : LaunchConfigArgs)
    (henv : env "ELIA_SYSTEM_PROMPT" = some "foo")
    (hsp : args.system_prompt = none) :
    ∃ c, mkLaunchConfig env args = .ok c ∧ c.system_prompt = "foo" := by
  have hrw : mkLaunchConfig env args =
      .ok { default_model := args.default_model.getD "elia-gpt-4.1"
            system_prompt := systemPromptDefault env
            message_code_theme := args.message_code_theme.getD "monokai"
            models := args.models.getD []
            builtin_models := get_builtin_models
            theme := args.theme.getD "nebula" } := by
    unfold mkLaunchConfig
    rw [hsp]
  exact ⟨_, hrw, by simp [systemPromptDefault, henv]⟩

/-- C5 witness: with the concrete environment `envFoo` and no arguments, the
constructed configuration has `system_prompt = "foo"`. -/
theorem c5_witness :
    ∃ c, mkLaunchConfig envFoo {} = .ok c ∧ c.system_prompt = "foo" :=
  c5_env_override envFoo {} rfl rfl

/-- C6: `get_builtin_models` is the concatenation of the OpenAI, Anthropic
and Google generators, in that order, and the `id` values of the returned
descriptors are pairwise distinct. Determinism is immediate since it is a
constant. -/
theorem c6_builtin_models :
    get_builtin_models =
      get_builtin_openai_models ++ get_builtin_anthropic_models
        ++ get_builtin_google_models ∧
    (get_builtin_models.map (fun m => m.id)).Nodup := by
  exact ⟨rfl, by decide⟩

/-- C8 (counterexample): constructing a model descriptor with `name` set to
the empty string succeeds; the class declares `name : str` with no
non-emptiness validator, so only a missing `name` is rejected. -/
theorem c8_counterexample :
    ∃ m, mkEliaChatModel { name := some "", provider := some "OpenAI" } = .ok m :=
  ⟨_, rfl⟩

/-- C8 (amended): constructing a model descriptor without a `name` keyword
fails with a validation error naming the missing required field `name`; an
empty string is accepted as a `name`. -/
theorem c8_name_required (args : EliaChatModelArgs) (h : args.name = none) :
    mkEliaChatModel args = .error ["name"] := by
  unfold mkEliaChatModel
  rw [h]

/-- C8 witness: construction with no keywords at all fails with the
missing-`name` validation error. -/
theorem c8_witness : mkEliaChatModel {} = .error ["name"] :=
  c8_name_required {} rfl

/-- C4 (counterexample): on a directory with the single file
`{name: "foo", primary: "#112233"}`, `load_user_themes` does not return a
mapping at all: `variables` has no default and is required, so the pydantic
construction fails with a validation error naming `variables`. -/
theorem c4_counterexample :
    loadUserThemes [fooThemeFile] = .error (.schemaError ["variables"]) := rfl

/-- C4 (amended): on a directory with the single file
`{name: "foo", primary: "#112233", variables: {}}`, `load_user_themes`
returns the mapping with key `"foo"`, `primary = "#112233"`, and every
unset optional field at its declared default. -/
theorem c4_amended_theorem :
    loadUserThemes [fooThemeFileFull] =
      .ok [("foo",
        { name := "foo", primary := "#112233", secondary := none,
          background := none, surface := none, panel := none,
          warning := none, error := none, success := none, accent := none,
          dark := true, «variables» := [] })] := rfl

/-- C7: on a `.yaml` file lacking a `name` (and on a file parsing to an
empty document), `load_user_themes` raises the pydantic validation error of
`Theme(**theme_content)` — which does not name the file path — instead of
the path-naming `ValueError`: the assignment evaluates its right-hand side
before the `theme_content["name"]` subscript, so the `except KeyError`
branch never runs. -/
theorem c7_missing_name_behavior :
    loadUserThemes [noNameThemeFile] = .error (.schemaError ["name"]) ∧
    loadUserThemes [emptyDocThemeFile] =
      .error (.schemaError ["name", "primary", "variables"]) :=
  ⟨rfl, rfl⟩

/-- C10: when a theme document contains `name` but violates the schema
otherwise, `load_user_themes` propagates the underlying validation error
unmodified — an error that carries the missing field names and no file
path — and the path-naming `ValueError` is never produced at all (in
particular, only the missing-`name` case could ever be blamed for it). -/
theorem c10_underlying_error_passthrough :
    (∀ (p : String) (doc : ThemeDoc) (ms : List String),
        doc.name.isSome → mkTheme doc = .error ms →
        loadUserThemes [{ path := p, ext := ".yaml", doc := some doc }] =
          .error (.schemaError ms)) ∧
    (∀ (files : List ThemeFile) (msg : String),
        loadUserThemes files ≠ Except.error (LoadError.valueError msg)) := by
  constructor
  · intro p doc ms _ hm
    unfold loadUserThemes loadUserThemesAux
    rw [if_pos (Or.inl rfl)]
    simp only [Option.getD_some]
    rw [hm]
  · intro files msg
    exact loadUserThemesAux_no_valueError files [] msg

/-- C10 witness: the file `{name: "foo"}` (missing `primary` and
`variables`) makes `load_user_themes` fail with the bare schema error
listing those two fields. -/
theorem c10_witness :
    loadUserThemes [⟨"themes/foo.yaml", ".yaml", some nameOnlyThemeDoc⟩] =
      .error (.schemaError ["primary", "variables"]) :=
  c10_underlying_error_passthrough.1 "themes/foo.yaml" nameOnlyThemeDoc
    ["primary", "variables"] rfl rfl

/-- C9: `to_color_system` passes to the color-system constructor exactly the
non-`name` fields of the theme, each with its value: the explicit exclusion
set `{text_area, syntax, variable, url, method}` removes nothing (none of
those fields exist on `Theme`), so the dump equals the unfiltered dump, and
`name` never appears because of its `Field(exclude=True)` marker. -/
theorem c9_to_color_system (t : Theme) :
    t.to_color_system = t.modelDump [] ∧
    t.to_color_system =
      [ ("primary", DumpVal.str t.primary)
      , ("secondary", DumpVal.ostr t.secondary)
      , ("background", DumpVal.ostr t.background)
      , ("surface", DumpVal.ostr t.surface)
      , ("panel", DumpVal.ostr t.panel)
      , ("warning", DumpVal.ostr t.warning)
      , ("error", DumpVal.ostr t.error)
      , ("success", DumpVal.ostr t.success)
      , ("accent", DumpVal.ostr t.accent)
      , ("dark", DumpVal.bool t.dark)
      , ("variables", DumpVal.dict t.«variables») ] ∧
    (∀ v, ("name", v) ∉ t.to_color_system) := by
  refine ⟨rfl, rfl, ?_⟩
  intro v hv
  simp [Theme.to_color_system, Theme.modelDump, colorSystemExclude] at hv

/-- C9 witness: on a concrete theme, `name` is not among the keyword
arguments passed to the color-system constructor. -/
theorem c9_witness :
    ("name", DumpVal.str "textual") ∉
      (Theme.to_color_system
        { name := "textual", primary := "#004578", «variables» := [] }) :=
  (c9_to_color_system
    { name := "textual", primary := "#004578", «variables» := [] }).2.2
    (DumpVal.str "textual")

end Elia
